import Mathlib

/-!
Shallow embedding of the GRFM prediction engine of OpenSimRT
(RealTime/src/experimental/GRFMPrediction.cpp) and proofs of the
specified properties.　Machine floating-point arithmetic is embedded over
the real numbers; the external biomechanical model and the gait-phase
detector are represented by the per-call values they supply at the
interface seams described in the specification.
-/

namespace OpenSimRT

/-- Embedding of SimTK Vec3: a 3-component real vector. -/
structure Vec3 where
  x : ℝ
  y : ℝ
  z : ℝ

instance : Zero Vec3 := ⟨⟨0, 0, 0⟩⟩

instance : Add Vec3 := ⟨fun a b => ⟨a.x + b.x, a.y + b.y, a.z + b.z⟩⟩

instance : Sub Vec3 := ⟨fun a b => ⟨a.x - b.x, a.y - b.y, a.z - b.z⟩⟩

instance : SMul ℝ Vec3 := ⟨fun c v => ⟨c * v.x, c * v.y, c * v.z⟩⟩

@[ext] theorem Vec3.ext {a b : Vec3} (hx : a.x = b.x) (hy : a.y = b.y)
    (hz : a.z = b.z) : a = b := by
  cases a; cases b; simp_all

@[simp] theorem Vec3.zero_x : (0 : Vec3).x = 0 := rfl

@[simp] theorem Vec3.zero_y : (0 : Vec3).y = 0 := rfl

@[simp] theorem Vec3.zero_z : (0 : Vec3).z = 0 := rfl

@[simp] theorem Vec3.add_x (a b : Vec3) : (a + b).x = a.x + b.x := rfl

@[simp] theorem Vec3.add_y (a b : Vec3) : (a + b).y = a.y + b.y := rfl

@[simp] theorem Vec3.add_z (a b : Vec3) : (a + b).z = a.z + b.z := rfl

@[simp] theorem Vec3.sub_x (a b : Vec3) : (a - b).x = a.x - b.x := rfl

@[simp] theorem Vec3.sub_y (a b : Vec3) : (a - b).y = a.y - b.y := rfl

@[simp] theorem Vec3.sub_z (a b : Vec3) : (a - b).z = a.z - b.z := rfl

@[simp] theorem Vec3.smul_x (c : ℝ) (v : Vec3) : (c • v).x = c * v.x := rfl

@[simp] theorem Vec3.smul_y (c : ℝ) (v : Vec3) : (c • v).y = c * v.y := rfl

@[simp] theorem Vec3.smul_z (c : ℝ) (v : Vec3) : (c • v).z = c * v.z := rfl

/-- Subtracting and adding back the same vector is the identity
(used for the double-support split: leading = total - trailing). -/
theorem Vec3.sub_add_cancel (a b : Vec3) : a - b + b = a := by
  ext <;> simp

/-- Modelled from the spec: the clamping helper `clip(x, lo, hi)` of Utils.h
(declared outside the excerpt); the spec states that transition-function
outputs "are always clamped to [0, 1]". -/
noncomputable def clip (x lo hi : ℝ) : ℝ := max lo (min x hi)

theorem clip_nonneg (x hi : ℝ) : 0 ≤ clip x 0 hi := le_max_left 0 _

theorem clip_le_one (x : ℝ) : clip x 0 1 ≤ 1 :=
  max_le zero_le_one (min_le_right x 1)

/-- Embedding of the STA transition lambda `reactionComponentTransition`:
`clip(exp(-pow(2 t / Tds, 3)), 0, 1)`.  The captured member `Tds` is an
explicit argument. -/
noncomputable def reactionComponentTransition (Tds t : ℝ) : ℝ :=
  clip (Real.exp (-(2 * t / Tds) ^ 3)) 0 1

/-- Scale factor of the CoP-trajectory lambda `copPosition`:
`clip(-2/(3 Pi) (sin(omega t) - sin(2 omega t)/8 - 3/4 omega t), 0, 1)` with
`omega = 2 Pi / Tss`.  The captured member `Tss` is an explicit argument. -/
noncomputable def copScale (Tss t : ℝ) : ℝ :=
  let omega := 2 * Real.pi / Tss
  clip (-2 / (3 * Real.pi) *
    (Real.sin (omega * t) - Real.sin (2 * omega * t) / 8 - 3 / 4 * omega * t)) 0 1

/-- Embedding of the CoP-trajectory lambda `copPosition`: the heel-to-toe
displacement `d` scaled by the clipped progress factor. -/
noncomputable def copPosition (Tss : ℝ) (t : ℝ) (d : Vec3) : Vec3 :=
  copScale Tss t • d

/-- Embedding of GaitPhaseState gait phase (GaitPhaseDetector.h). -/
inductive GaitPhase
  | DOUBLE_SUPPORT
  | LEFT_SWING
  | RIGHT_SWING
  | INVALID
deriving DecidableEq

/-- Embedding of GaitPhaseState leading leg (GaitPhaseDetector.h). -/
inductive LeadingLeg
  | RIGHT
  | LEFT
  | INVALID
deriving DecidableEq

/-- Embedding of GRFMPrediction Method. -/
inductive Method
  | NewtonEuler
  | InverseDynamics
deriving DecidableEq

/-- Embedding of OpenSim String toLower (ASCII lower-casing, per character),
applied by `selectMethod` before the lookup. -/
def stringToLower (s : String) : String := String.mk (s.data.map Char.toLower)

/-- The list `validNENames` of GRFMPrediction selectMethod. -/
def validNENames : List String :=
  ["newtoneuler", "newton-euler", "newton_euler", "ne"]

/-- The list `validIDNames` of GRFMPrediction selectMethod. -/
def validIDNames : List String :=
  ["inversedynamics", "inverse-dynamics", "inverse_dynamics", "id"]

/-- Embedding of GRFMPrediction selectMethod: lower-case the input, look it
up in the two alias lists, and otherwise throw (THROW_EXCEPTION is embedded
as `Except.error`). -/
def selectMethod (methodName : String) : Except String Method :=
  if stringToLower methodName ∈ validNENames then
    Except.ok Method.NewtonEuler
  else if stringToLower methodName ∈ validIDNames then
    Except.ok Method.InverseDynamics
  else
    Except.error "Wrong input method. Select appropriate input name."

/-- Embedding of GRFMPrediction seperateReactionComponents (the source
spelling is kept).  The gait phase and leading leg are the values the
detector returns during the call; the three transition functions are passed
exactly as in the source.  The C++ routine writes through two out-parameters
that it leaves untouched in the INVALID cases, so the embedding takes their
incoming values `rightReactionComponent0` / `leftReactionComponent0` and
returns the pair (right, left) after the call. -/
def seperateReactionComponents (phase : GaitPhase) (leadingLeg : LeadingLeg)
    (time : ℝ) (totalReactionComponent totalReactionAtThs : Vec3)
    (anteriorComponentFunction verticalComponentFunction
      lateralComponentFunction : ℝ → ℝ)
    (rightReactionComponent0 leftReactionComponent0 : Vec3) : Vec3 × Vec3 :=
  match phase with
  | GaitPhase.DOUBLE_SUPPORT =>
    let trailingReactionComponent : Vec3 :=
      ⟨totalReactionAtThs.x * anteriorComponentFunction time,
       totalReactionAtThs.y * verticalComponentFunction time,
       totalReactionAtThs.z * lateralComponentFunction time⟩
    let leadingReactionComponent :=
      totalReactionComponent - trailingReactionComponent
    match leadingLeg with
    | LeadingLeg.RIGHT => (leadingReactionComponent, trailingReactionComponent)
    | LeadingLeg.LEFT => (trailingReactionComponent, leadingReactionComponent)
    | LeadingLeg.INVALID => (rightReactionComponent0, leftReactionComponent0)
  | GaitPhase.LEFT_SWING => (totalReactionComponent, (0 : Vec3))
  | GaitPhase.RIGHT_SWING => ((0 : Vec3), totalReactionComponent)
  | GaitPhase.INVALID => ((0 : Vec3), (0 : Vec3))

/-- Embedding of GRFMPrediction computeReactionPoint.  `Tss` is the
single-support duration the routine reads from the detector on entry;
the four station locations in ground are the values the model returns for
the current state; `rightPoint0` / `leftPoint0` are the incoming values of
the out-parameters, untouched in the INVALID leading-leg case. -/
noncomputable def computeReactionPoint (phase : GaitPhase)
    (leadingLeg : LeadingLeg) (Tss toeOffTime : ℝ)
    (heelRLoc heelLLoc toeRLoc toeLLoc : Vec3)
    (t : ℝ) (rightPoint0 leftPoint0 : Vec3) : Vec3 × Vec3 :=
  match phase with
  | GaitPhase.DOUBLE_SUPPORT =>
    match leadingLeg with
    | LeadingLeg.RIGHT => (heelRLoc, toeLLoc)
    | LeadingLeg.LEFT => (toeRLoc, heelLLoc)
    | LeadingLeg.INVALID => (rightPoint0, leftPoint0)
  | GaitPhase.LEFT_SWING =>
    (heelRLoc + copPosition Tss (t - toeOffTime) (toeRLoc - heelRLoc),
     (0 : Vec3))
  | GaitPhase.RIGHT_SWING =>
    ((0 : Vec3),
     heelLLoc + copPosition Tss (t - toeOffTime) (toeLLoc - heelLLoc))
  | GaitPhase.INVALID => ((0 : Vec3), (0 : Vec3))

/-- One input sample of GRFMPrediction solve: timestamp and generalized
coordinates with their first two derivatives. -/
structure Input where
  t : ℝ
  q : List ℝ
  qDot : List ℝ
  qDDot : List ℝ

/-- Per-leg slice of the output record: force, torque and CoP point. -/
structure LegOutput where
  force : Vec3
  torque : Vec3
  point : Vec3

/-- Embedding of GRFMPrediction Output: echoed timestamp plus per-leg data. -/
structure Output where
  t : ℝ
  right : LegOutput
  left : LegOutput

/-- The gait-phase detector as seen through the queries solve makes during
one call (readiness, phase, leading leg, event times, durations). -/
structure GaitPhaseDetector where
  isDetectorReady : Bool
  phase : GaitPhase
  leadingLeg : LeadingLeg
  heelStrikeTime : ℝ
  toeOffTime : ℝ
  doubleSupportDuration : ℝ
  singleSupportDuration : ℝ

/-- The external biomechanical model as seen through the queries solve makes
during one call, parameterized by an abstract model-state type `MS`:
state update plus realize-to-dynamics, the pelvis heading direction that is
pushed into the gait-direction buffer, the gait-direction rotation (applied
to a vector) computed from the state and the buffer contents, the total
reaction wrench of the selected method, and the four station locations in
ground. -/
structure ModelOracle (MS : Type) where
  update : MS → Input → MS
  pelvisDirection : MS → Vec3
  rotate : MS → List Vec3 → Vec3 → Vec3
  totalReaction : MS → Input → Vec3 × Vec3
  heelRLocation : MS → Vec3
  heelLLocation : MS → Vec3
  toeRLocation : MS → Vec3
  toeLLocation : MS → Vec3

/-- The mutable per-instance state of the engine: model state, the
gait-direction buffer, the heel-strike anchors and the phase durations. -/
structure EngineState (MS : Type) where
  modelState : MS
  gaitDirectionBuffer : List Vec3
  totalForceAtThs : Vec3
  totalMomentAtThs : Vec3
  Tds : ℝ
  Tss : ℝ

/-- Modelled from the spec: the fixed-capacity circular buffer of heading
vectors (SlidingWindow, declared outside the excerpt).  `insert` appends the
newest sample and discards the oldest once the window of
`directionWindowSize` slots is full. -/
def bufferInsert (windowSize : ℕ) (v : Vec3) (buf : List Vec3) : List Vec3 :=
  (v :: buf).take windowSize

/-- The never-assigned SimTK Vec3 locals of solve
(rightReactionForce/leftReactionForce, rightReactionMoment/
leftReactionMoment, rightPoint/leftPoint).  SimTK Vec3 is
default-constructed with indeterminate contents (NaN in debug builds), so
the embedding passes the initial contents of those locals explicitly. -/
structure UninitLocals where
  rightReactionForce0 : Vec3
  leftReactionForce0 : Vec3
  rightReactionMoment0 : Vec3
  leftReactionMoment0 : Vec3
  rightPoint0 : Vec3
  leftPoint0 : Vec3

/-- The model state after the updateState / realizeDynamics step of solve. -/
def solveModelState {MS : Type} (oracle : ModelOracle MS)
    (es : EngineState MS) (input : Input) : MS :=
  oracle.update es.modelState input

/-- The gait-direction buffer after computeGaitDirectionRotation inserted
the current pelvis heading. -/
def solveBuffer {MS : Type} (windowSize : ℕ) (oracle : ModelOracle MS)
    (es : EngineState MS) (input : Input) : List Vec3 :=
  bufferInsert windowSize (oracle.pelvisDirection (solveModelState oracle es input))
    es.gaitDirectionBuffer

/-- The total reaction force after rotation into the gait-direction frame
(`totalReactionForce = R * totalReactionForce` in solve). -/
def rotatedTotalForce {MS : Type} (windowSize : ℕ) (oracle : ModelOracle MS)
    (es : EngineState MS) (input : Input) : Vec3 :=
  oracle.rotate (solveModelState oracle es input)
    (solveBuffer windowSize oracle es input)
    (oracle.totalReaction (solveModelState oracle es input) input).1

/-- The total reaction moment after rotation into the gait-direction frame
(`totalReactionMoment = R * totalReactionMoment` in solve). -/
def rotatedTotalMoment {MS : Type} (windowSize : ℕ) (oracle : ModelOracle MS)
    (es : EngineState MS) (input : Input) : Vec3 :=
  oracle.rotate (solveModelState oracle es input)
    (solveBuffer windowSize oracle es input)
    (oracle.totalReaction (solveModelState oracle es input) input).2

/-- Embedding of GRFMPrediction solve.  Returns the output record together
with the engine state after the call.  When the detector is not ready the
zero-initialized output (with the echoed timestamp) is returned and the
body is skipped; otherwise the model state is updated, the heading buffer
extended, the total reaction computed and rotated, the heel-strike anchors
latched when the elapsed time since heel-strike is exactly zero, Tds and
Tss refreshed from the detector, and the per-leg components and CoP points
computed. -/
noncomputable def solve {MS : Type} (windowSize : ℕ) (oracle : ModelOracle MS)
    (detector : GaitPhaseDetector) (junk : UninitLocals)
    (es : EngineState MS) (input : Input) : Output × EngineState MS :=
  if detector.isDetectorReady then
    let ms := solveModelState oracle es input
    let buf := solveBuffer windowSize oracle es input
    let totalReactionForce := rotatedTotalForce windowSize oracle es input
    let totalReactionMoment := rotatedTotalMoment windowSize oracle es input
    let time := input.t - detector.heelStrikeTime
    let totalForceAtThs :=
      if time = 0 then totalReactionForce else es.totalForceAtThs
    let totalMomentAtThs :=
      if time = 0 then totalReactionMoment else es.totalMomentAtThs
    let Tds := detector.doubleSupportDuration
    let forces :=
      seperateReactionComponents detector.phase detector.leadingLeg time
        totalReactionForce totalForceAtThs
        (reactionComponentTransition Tds) (reactionComponentTransition Tds)
        (reactionComponentTransition Tds)
        junk.rightReactionForce0 junk.leftReactionForce0
    let moments :=
      seperateReactionComponents detector.phase detector.leadingLeg time
        totalReactionMoment totalMomentAtThs
        (reactionComponentTransition Tds) (reactionComponentTransition Tds)
        (reactionComponentTransition Tds)
        junk.rightReactionMoment0 junk.leftReactionMoment0
    let Tss := detector.singleSupportDuration
    let points :=
      computeReactionPoint detector.phase detector.leadingLeg Tss
        detector.toeOffTime
        (oracle.heelRLocation ms) (oracle.heelLLocation ms)
        (oracle.toeRLocation ms) (oracle.toeLLocation ms)
        input.t junk.rightPoint0 junk.leftPoint0
    (⟨input.t, ⟨forces.1, moments.1, points.1⟩, ⟨forces.2, moments.2, points.2⟩⟩,
     ⟨ms, buf, totalForceAtThs, totalMomentAtThs, Tds, Tss⟩)
  else
    (⟨input.t, ⟨0, 0, 0⟩, ⟨0, 0, 0⟩⟩, es)

/-- The complementary cancellation for the LEFT-leading assignment of the
double-support split. -/
theorem Vec3.add_sub_cancel (a b : Vec3) : b + (a - b) = a := by
  ext <;> simp

/-- A concrete model oracle used to instantiate the solve theorems: the
station locations are pairwise distinct points and the rotation is the
identity map. -/
noncomputable def testOracle : ModelOracle Unit :=
  ⟨fun _ _ => (), fun _ => ⟨1, 0, 0⟩, fun _ _ v => v,
   fun _ _ => (⟨3, 30, 0⟩, ⟨0, 0, 5⟩),
   fun _ => ⟨1, 0, 0⟩, fun _ => ⟨-1, 0, 0⟩, fun _ => ⟨2, 0, 0⟩,
   fun _ => ⟨-2, 0, 0⟩⟩

/-- A ready detector reporting double support with the right leg leading. -/
noncomputable def testDetectorDS : GaitPhaseDetector :=
  ⟨true, GaitPhase.DOUBLE_SUPPORT, LeadingLeg.RIGHT, 0, 0, 1, 1⟩

/-- A ready detector reporting double support with an invalid leading leg
(the detector-contract violation). -/
noncomputable def testDetectorDSInvalid : GaitPhaseDetector :=
  ⟨true, GaitPhase.DOUBLE_SUPPORT, LeadingLeg.INVALID, 0, 0, 1, 1⟩

/-- A ready detector reporting left swing. -/
noncomputable def testDetectorLS : GaitPhaseDetector :=
  ⟨true, GaitPhase.LEFT_SWING, LeadingLeg.RIGHT, 0, 0, 1, 1⟩

/-- A detector that is not yet ready. -/
noncomputable def testDetectorNotReady : GaitPhaseDetector :=
  ⟨false, GaitPhase.INVALID, LeadingLeg.INVALID, 0, 0, 1, 1⟩

/-- Concrete, nonzero initial contents for the never-assigned Vec3 locals
of solve. -/
noncomputable def testJunk : UninitLocals :=
  ⟨⟨41, 0, 0⟩, ⟨42, 0, 0⟩, ⟨43, 0, 0⟩, ⟨44, 0, 0⟩, ⟨45, 0, 0⟩, ⟨46, 0, 0⟩⟩

/-- A concrete engine state. -/
noncomputable def testES : EngineState Unit :=
  ⟨(), [], ⟨0, 20, 0⟩, ⟨0, 0, 2⟩, 1, 1⟩

/-- A concrete input sample (timestamp 1, so the elapsed time since the
heel strike at 0 is nonzero). -/
noncomputable def testInput : Input := ⟨1, [], [], []⟩

/-- Claim C7: for every elapsed time t and every value of Tds and Tss
(including inaccurate estimates), the double-support transition function
and the single-support CoP progress scale factor both lie in [0, 1]. -/
theorem transition_outputs_clamped (t Tds Tss : ℝ) :
    0 ≤ reactionComponentTransition Tds t ∧
    reactionComponentTransition Tds t ≤ 1 ∧
    0 ≤ copScale Tss t ∧ copScale Tss t ≤ 1 := by
  unfold reactionComponentTransition copScale
  exact ⟨clip_nonneg _ _, clip_le_one _, clip_nonneg _ _, clip_le_one _⟩

/-- Claim C9: selectMethod resolves, case-insensitively, the Newton-Euler
aliases to the Newton-Euler method and the inverse-dynamics aliases to the
Inverse-Dynamics method, and fails with a configuration error on every
other name instead of silently defaulting. -/
theorem selectMethod_resolution (s : String) :
    (stringToLower s ∈ validNENames →
      selectMethod s = Except.ok Method.NewtonEuler) ∧
    (stringToLower s ∈ validIDNames →
      selectMethod s = Except.ok Method.InverseDynamics) ∧
    (stringToLower s ∉ validNENames → stringToLower s ∉ validIDNames →
      selectMethod s =
        Except.error "Wrong input method. Select appropriate input name.") := by
  refine ⟨fun h => ?_, fun h => ?_, fun h1 h2 => ?_⟩
  · simp [selectMethod, h]
  · have hne : stringToLower s ∉ validNENames := by
      simp only [validIDNames, List.mem_cons, List.not_mem_nil, or_false] at h
      rcases h with h | h | h | h <;> rw [h] <;> decide
    simp [selectMethod, hne, h]
  · simp [selectMethod, h1, h2]

/-- Witness for C9 at the concrete names of the specification. -/
theorem selectMethod_resolution_witness :
    stringToLower "Newton-Euler" ∈ validNENames ∧
    selectMethod "Newton-Euler" = Except.ok Method.NewtonEuler ∧
    stringToLower "NE" ∈ validNENames ∧
    selectMethod "NE" = Except.ok Method.NewtonEuler ∧
    stringToLower "id" ∈ validIDNames ∧
    selectMethod "id" = Except.ok Method.InverseDynamics ∧
    stringToLower "bogus" ∉ validNENames ∧
    stringToLower "bogus" ∉ validIDNames ∧
    selectMethod "bogus" =
      Except.error "Wrong input method. Select appropriate input name." :=
  ⟨by decide, (selectMethod_resolution "Newton-Euler").1 (by decide),
   by decide, (selectMethod_resolution "NE").1 (by decide),
   by decide, (selectMethod_resolution "id").2.1 (by decide),
   by decide, by decide,
   (selectMethod_resolution "bogus").2.2 (by decide) (by decide)⟩

/-- Claim C8: for every solve call made while the detector is not ready,
the output echoes the input timestamp and force, torque and CoP of both
legs are the zero vector. -/
theorem solve_not_ready_output {MS : Type} (windowSize : ℕ)
    (oracle : ModelOracle MS) (detector : GaitPhaseDetector)
    (junk : UninitLocals) (es : EngineState MS) (input : Input)
    (hready : detector.isDetectorReady = false) :
    (solve windowSize oracle detector junk es input).1.t = input.t ∧
    (solve windowSize oracle detector junk es input).1.right.force = 0 ∧
    (solve windowSize oracle detector junk es input).1.right.torque = 0 ∧
    (solve windowSize oracle detector junk es input).1.right.point = 0 ∧
    (solve windowSize oracle detector junk es input).1.left.force = 0 ∧
    (solve windowSize oracle detector junk es input).1.left.torque = 0 ∧
    (solve windowSize oracle detector junk es input).1.left.point = 0 := by
  simp [solve, hready]

/-- Witness for C8 at a concrete not-ready detector. -/
theorem solve_not_ready_output_witness :
    testDetectorNotReady.isDetectorReady = false ∧
    ((solve 5 testOracle testDetectorNotReady testJunk testES testInput).1.t =
        testInput.t ∧
     (solve 5 testOracle testDetectorNotReady testJunk testES testInput).1.right.force = 0 ∧
     (solve 5 testOracle testDetectorNotReady testJunk testES testInput).1.right.torque = 0 ∧
     (solve 5 testOracle testDetectorNotReady testJunk testES testInput).1.right.point = 0 ∧
     (solve 5 testOracle testDetectorNotReady testJunk testES testInput).1.left.force = 0 ∧
     (solve 5 testOracle testDetectorNotReady testJunk testES testInput).1.left.torque = 0 ∧
     (solve 5 testOracle testDetectorNotReady testJunk testES testInput).1.left.point = 0) :=
  ⟨rfl, solve_not_ready_output 5 testOracle testDetectorNotReady testJunk
    testES testInput rfl⟩

/-- Claim C10: a solve call made while the detector is not ready mutates no
engine state: the model state, the gait-direction buffer, the heel-strike
anchors and the Tds/Tss durations are all returned unchanged. -/
theorem solve_not_ready_no_mutation {MS : Type} (windowSize : ℕ)
    (oracle : ModelOracle MS) (detector : GaitPhaseDetector)
    (junk : UninitLocals) (es : EngineState MS) (input : Input)
    (hready : detector.isDetectorReady = false) :
    (solve windowSize oracle detector junk es input).2 = es := by
  simp [solve, hready]

/-- Witness for C10 at a concrete not-ready detector. -/
theorem solve_not_ready_no_mutation_witness :
    testDetectorNotReady.isDetectorReady = false ∧
    (solve 5 testOracle testDetectorNotReady testJunk testES testInput).2 =
      testES :=
  ⟨rfl, solve_not_ready_no_mutation 5 testOracle testDetectorNotReady
    testJunk testES testInput rfl⟩

/-- Claim C1: for every solve call whose phase is DoubleSupport, for the
force output and for the moment output, the right-leg component plus the
left-leg component equals the total (rotated) reaction component, for every
leading-leg assignment (Right or Left). -/
theorem solve_double_support_split {MS : Type} (windowSize : ℕ)
    (oracle : ModelOracle MS) (detector : GaitPhaseDetector)
    (junk : UninitLocals) (es : EngineState MS) (input : Input)
    (hready : detector.isDetectorReady = true)
    (hphase : detector.phase = GaitPhase.DOUBLE_SUPPORT)
    (hleg : detector.leadingLeg ≠ LeadingLeg.INVALID) :
    (solve windowSize oracle detector junk es input).1.right.force +
        (solve windowSize oracle detector junk es input).1.left.force =
      rotatedTotalForce windowSize oracle es input ∧
    (solve windowSize oracle detector junk es input).1.right.torque +
        (solve windowSize oracle detector junk es input).1.left.torque =
      rotatedTotalMoment windowSize oracle es input := by
  rcases hl : detector.leadingLeg with _ | _ | _
  · simp only [solve, hready, if_true, seperateReactionComponents, hphase, hl]
    exact ⟨Vec3.sub_add_cancel _ _, Vec3.sub_add_cancel _ _⟩
  · simp only [solve, hready, if_true, seperateReactionComponents, hphase, hl]
    exact ⟨Vec3.add_sub_cancel _ _, Vec3.add_sub_cancel _ _⟩
  · exact absurd hl hleg

/-- Witness for C1 at a concrete double-support sample with the right leg
leading. -/
theorem solve_double_support_split_witness :
    testDetectorDS.isDetectorReady = true ∧
    testDetectorDS.phase = GaitPhase.DOUBLE_SUPPORT ∧
    testDetectorDS.leadingLeg ≠ LeadingLeg.INVALID ∧
    ((solve 5 testOracle testDetectorDS testJunk testES testInput).1.right.force +
        (solve 5 testOracle testDetectorDS testJunk testES testInput).1.left.force =
      rotatedTotalForce 5 testOracle testES testInput ∧
     (solve 5 testOracle testDetectorDS testJunk testES testInput).1.right.torque +
        (solve 5 testOracle testDetectorDS testJunk testES testInput).1.left.torque =
      rotatedTotalMoment 5 testOracle testES testInput) :=
  ⟨rfl, rfl, by decide,
   solve_double_support_split 5 testOracle testDetectorDS testJunk testES
     testInput rfl rfl (by decide)⟩

/-- Claim C4: in LeftSwing the right leg carries the whole total (rotated)
reaction force and moment and the left leg is exactly zero; in RightSwing
the symmetric property holds with the legs swapped. -/
theorem solve_swing_attribution {MS : Type} (windowSize : ℕ)
    (oracle : ModelOracle MS) (detector : GaitPhaseDetector)
    (junk : UninitLocals) (es : EngineState MS) (input : Input)
    (hready : detector.isDetectorReady = true) :
    (detector.phase = GaitPhase.LEFT_SWING →
      (solve windowSize oracle detector junk es input).1.right.force =
          rotatedTotalForce windowSize oracle es input ∧
      (solve windowSize oracle detector junk es input).1.right.torque =
          rotatedTotalMoment windowSize oracle es input ∧
      (solve windowSize oracle detector junk es input).1.left.force = 0 ∧
      (solve windowSize oracle detector junk es input).1.left.torque = 0) ∧
    (detector.phase = GaitPhase.RIGHT_SWING →
      (solve windowSize oracle detector junk es input).1.left.force =
          rotatedTotalForce windowSize oracle es input ∧
      (solve windowSize oracle detector junk es input).1.left.torque =
          rotatedTotalMoment windowSize oracle es input ∧
      (solve windowSize oracle detector junk es input).1.right.force = 0 ∧
      (solve windowSize oracle detector junk es input).1.right.torque = 0) := by
  constructor
  · intro hphase
    simp [solve, hready, seperateReactionComponents, hphase]
  · intro hphase
    simp [solve, hready, seperateReactionComponents, hphase]

/-- Witness for C4 at a concrete left-swing sample. -/
theorem solve_swing_attribution_witness :
    testDetectorLS.isDetectorReady = true ∧
    testDetectorLS.phase = GaitPhase.LEFT_SWING ∧
    ((solve 5 testOracle testDetectorLS testJunk testES testInput).1.right.force =
        rotatedTotalForce 5 testOracle testES testInput ∧
     (solve 5 testOracle testDetectorLS testJunk testES testInput).1.right.torque =
        rotatedTotalMoment 5 testOracle testES testInput ∧
     (solve 5 testOracle testDetectorLS testJunk testES testInput).1.left.force = 0 ∧
     (solve 5 testOracle testDetectorLS testJunk testES testInput).1.left.torque = 0) :=
  ⟨rfl, rfl,
   (solve_swing_attribution 5 testOracle testDetectorLS testJunk testES
     testInput rfl).1 rfl⟩

/-- Counterexample to claim C2 as stated: at a concrete double-support
sample with the right leg leading, the CoP of the leading (right) leg is
NOT the toe reference point of that leg — the code assigns the heel
point to the leading leg. -/
theorem solve_double_support_cop_counterexample :
    testDetectorDS.phase = GaitPhase.DOUBLE_SUPPORT ∧
    testDetectorDS.leadingLeg = LeadingLeg.RIGHT ∧
    (solve 5 testOracle testDetectorDS testJunk testES testInput).1.right.point ≠
      testOracle.toeRLocation (solveModelState testOracle testES testInput) := by
  refine ⟨rfl, rfl, ?_⟩
  intro h
  simp only [solve, computeReactionPoint, testDetectorDS, testOracle,
    solveModelState, if_true] at h
  have hx := congrArg Vec3.x h
  norm_num at hx

/-- Claim C2 amended: for every solve call in DoubleSupport with a valid
leading leg, the CoP of the LEADING leg equals the HEEL reference point of
that leg (the heel station located in ground for the current model state)
and the CoP of the TRAILING leg equals the TOE reference point of that
leg. -/
theorem solve_double_support_cop {MS : Type} (windowSize : ℕ)
    (oracle : ModelOracle MS) (detector : GaitPhaseDetector)
    (junk : UninitLocals) (es : EngineState MS) (input : Input)
    (hready : detector.isDetectorReady = true)
    (hphase : detector.phase = GaitPhase.DOUBLE_SUPPORT) :
    (detector.leadingLeg = LeadingLeg.RIGHT →
      (solve windowSize oracle detector junk es input).1.right.point =
        oracle.heelRLocation (solveModelState oracle es input) ∧
      (solve windowSize oracle detector junk es input).1.left.point =
        oracle.toeLLocation (solveModelState oracle es input)) ∧
    (detector.leadingLeg = LeadingLeg.LEFT →
      (solve windowSize oracle detector junk es input).1.right.point =
        oracle.toeRLocation (solveModelState oracle es input) ∧
      (solve windowSize oracle detector junk es input).1.left.point =
        oracle.heelLLocation (solveModelState oracle es input)) := by
  constructor <;> intro hl <;>
    simp [solve, hready, computeReactionPoint, hphase, hl]

/-- Witness for the amended C2 at a concrete double-support sample with the
right leg leading. -/
theorem solve_double_support_cop_witness :
    testDetectorDS.isDetectorReady = true ∧
    testDetectorDS.phase = GaitPhase.DOUBLE_SUPPORT ∧
    testDetectorDS.leadingLeg = LeadingLeg.RIGHT ∧
    ((solve 5 testOracle testDetectorDS testJunk testES testInput).1.right.point =
        testOracle.heelRLocation (solveModelState testOracle testES testInput) ∧
     (solve 5 testOracle testDetectorDS testJunk testES testInput).1.left.point =
        testOracle.toeLLocation (solveModelState testOracle testES testInput)) :=
  ⟨rfl, rfl, rfl,
   (solve_double_support_cop 5 testOracle testDetectorDS testJunk testES
     testInput rfl rfl).1 rfl⟩

/-- Claim C3 (code-bug evidence): at a double-support sample whose leading
leg is reported Invalid, solve copies the six never-assigned Vec3 locals
into the outputs of both legs, so the outputs for that sample equal the
indeterminate initial contents of those locals (here chosen nonzero)
instead of staying at previous/zero values.  The call does not abort:
it still returns a record. -/
theorem solve_invalid_leading_junk_outputs :
    testDetectorDSInvalid.phase = GaitPhase.DOUBLE_SUPPORT ∧
    testDetectorDSInvalid.leadingLeg = LeadingLeg.INVALID ∧
    (solve 5 testOracle testDetectorDSInvalid testJunk testES testInput).1.right.force =
      testJunk.rightReactionForce0 ∧
    (solve 5 testOracle testDetectorDSInvalid testJunk testES testInput).1.left.force =
      testJunk.leftReactionForce0 ∧
    (solve 5 testOracle testDetectorDSInvalid testJunk testES testInput).1.right.torque =
      testJunk.rightReactionMoment0 ∧
    (solve 5 testOracle testDetectorDSInvalid testJunk testES testInput).1.left.torque =
      testJunk.leftReactionMoment0 ∧
    (solve 5 testOracle testDetectorDSInvalid testJunk testES testInput).1.right.point =
      testJunk.rightPoint0 ∧
    (solve 5 testOracle testDetectorDSInvalid testJunk testES testInput).1.left.point =
      testJunk.leftPoint0 ∧
    testJunk.rightReactionForce0 ≠ 0 := by
  refine ⟨rfl, rfl, ?_, ?_, ?_, ?_, ?_, ?_, ?_⟩
  · simp [solve, seperateReactionComponents, testDetectorDSInvalid]
  · simp [solve, seperateReactionComponents, testDetectorDSInvalid]
  · simp [solve, seperateReactionComponents, testDetectorDSInvalid]
  · simp [solve, seperateReactionComponents, testDetectorDSInvalid]
  · simp [solve, computeReactionPoint, testDetectorDSInvalid]
  · simp [solve, computeReactionPoint, testDetectorDSInvalid]
  · intro h
    have hx := congrArg Vec3.x h
    simp only [testJunk, Vec3.zero_x] at hx
    norm_num at hx

/-- Claim C5: during single support the CoP of the stance leg is its heel
station point in ground plus the clipped progress scale factor (with
omega = 2 Pi / Tss, evaluated at the elapsed time since the last toe-off)
times the heel-to-toe displacement; the CoP of the airborne leg is the
zero vector.  The first conjunct identifies the scale factor with the
explicit formula of the specification. -/
theorem solve_single_support_cop {MS : Type} (windowSize : ℕ)
    (oracle : ModelOracle MS) (detector : GaitPhaseDetector)
    (junk : UninitLocals) (es : EngineState MS) (input : Input)
    (hready : detector.isDetectorReady = true) :
    (∀ Tss t : ℝ, copScale Tss t =
      clip (-2 / (3 * Real.pi) *
        (Real.sin (2 * Real.pi / Tss * t) -
          Real.sin (2 * (2 * Real.pi / Tss) * t) / 8 -
          3 / 4 * (2 * Real.pi / Tss) * t)) 0 1) ∧
    (detector.phase = GaitPhase.LEFT_SWING →
      (solve windowSize oracle detector junk es input).1.right.point =
        oracle.heelRLocation (solveModelState oracle es input) +
          copScale detector.singleSupportDuration
              (input.t - detector.toeOffTime) •
            (oracle.toeRLocation (solveModelState oracle es input) -
              oracle.heelRLocation (solveModelState oracle es input)) ∧
      (solve windowSize oracle detector junk es input).1.left.point = 0) ∧
    (detector.phase = GaitPhase.RIGHT_SWING →
      (solve windowSize oracle detector junk es input).1.left.point =
        oracle.heelLLocation (solveModelState oracle es input) +
          copScale detector.singleSupportDuration
              (input.t - detector.toeOffTime) •
            (oracle.toeLLocation (solveModelState oracle es input) -
              oracle.heelLLocation (solveModelState oracle es input)) ∧
      (solve windowSize oracle detector junk es input).1.right.point = 0) := by
  refine ⟨fun Tss t => rfl, fun hphase => ?_, fun hphase => ?_⟩ <;>
    simp [solve, hready, computeReactionPoint, copPosition, hphase]

/-- Witness for C5 at a concrete left-swing sample. -/
theorem solve_single_support_cop_witness :
    testDetectorLS.isDetectorReady = true ∧
    testDetectorLS.phase = GaitPhase.LEFT_SWING ∧
    ((solve 5 testOracle testDetectorLS testJunk testES testInput).1.right.point =
        testOracle.heelRLocation (solveModelState testOracle testES testInput) +
          copScale testDetectorLS.singleSupportDuration
              (testInput.t - testDetectorLS.toeOffTime) •
            (testOracle.toeRLocation (solveModelState testOracle testES testInput) -
              testOracle.heelRLocation (solveModelState testOracle testES testInput)) ∧
     (solve 5 testOracle testDetectorLS testJunk testES testInput).1.left.point = 0) :=
  ⟨rfl, rfl,
   (solve_single_support_cop 5 testOracle testDetectorLS testJunk testES
     testInput rfl).2.1 rfl⟩

/-- The double-support transition function evaluates to exactly 1 at
elapsed time 0, for any Tds. -/
theorem reactionComponentTransition_zero (Tds : ℝ) :
    reactionComponentTransition Tds 0 = 1 := by
  simp [reactionComponentTransition, clip, Real.exp_zero]

/-- Claim C6: the double-support transition function is exactly 1 at
elapsed time 0, so the trailing-leg component (the second output of the
splitter when the right leg leads) equals the anchored heel-strike value
exactly at that instant; and for a positive Tds the transition function,
and with it every axis of the trailing-leg component, tends to 0 as
elapsed time tends to infinity. -/
theorem transition_boundary (Tds : ℝ) (hT : 0 < Tds)
    (total anchor j1 j2 : Vec3) :
    reactionComponentTransition Tds 0 = 1 ∧
    (seperateReactionComponents GaitPhase.DOUBLE_SUPPORT LeadingLeg.RIGHT 0
        total anchor (reactionComponentTransition Tds)
        (reactionComponentTransition Tds) (reactionComponentTransition Tds)
        j1 j2).2 = anchor ∧
    Filter.Tendsto (reactionComponentTransition Tds) Filter.atTop (nhds 0) ∧
    Filter.Tendsto (fun time =>
        ((seperateReactionComponents GaitPhase.DOUBLE_SUPPORT LeadingLeg.RIGHT
            time total anchor (reactionComponentTransition Tds)
            (reactionComponentTransition Tds)
            (reactionComponentTransition Tds) j1 j2).2).x)
      Filter.atTop (nhds 0) ∧
    Filter.Tendsto (fun time =>
        ((seperateReactionComponents GaitPhase.DOUBLE_SUPPORT LeadingLeg.RIGHT
            time total anchor (reactionComponentTransition Tds)
            (reactionComponentTransition Tds)
            (reactionComponentTransition Tds) j1 j2).2).y)
      Filter.atTop (nhds 0) ∧
    Filter.Tendsto (fun time =>
        ((seperateReactionComponents GaitPhase.DOUBLE_SUPPORT LeadingLeg.RIGHT
            time total anchor (reactionComponentTransition Tds)
            (reactionComponentTransition Tds)
            (reactionComponentTransition Tds) j1 j2).2).z)
      Filter.atTop (nhds 0) := by
  have hdiv : Filter.Tendsto (fun t : ℝ => 2 * t / Tds)
      Filter.atTop Filter.atTop :=
    (Filter.Tendsto.const_mul_atTop two_pos Filter.tendsto_id).atTop_div_const hT
  have hpow : Filter.Tendsto (fun t : ℝ => (2 * t / Tds) ^ 3)
      Filter.atTop Filter.atTop :=
    (Filter.tendsto_pow_atTop (by norm_num)).comp hdiv
  have hneg : Filter.Tendsto (fun t : ℝ => -(2 * t / Tds) ^ 3)
      Filter.atTop Filter.atBot :=
    Filter.tendsto_neg_atTop_atBot.comp hpow
  have hexp : Filter.Tendsto (fun t : ℝ => Real.exp (-(2 * t / Tds) ^ 3))
      Filter.atTop (nhds 0) :=
    Real.tendsto_exp_atBot.comp hneg
  have hmin : Filter.Tendsto
      (fun t : ℝ => min (Real.exp (-(2 * t / Tds) ^ 3)) 1)
      Filter.atTop (nhds (min 0 1)) :=
    Filter.Tendsto.min hexp tendsto_const_nhds
  have hmax : Filter.Tendsto
      (fun t : ℝ => max 0 (min (Real.exp (-(2 * t / Tds) ^ 3)) 1))
      Filter.atTop (nhds (max 0 (min 0 1))) :=
    Filter.Tendsto.max tendsto_const_nhds hmin
  have hclip : Filter.Tendsto (reactionComponentTransition Tds)
      Filter.atTop (nhds 0) := by
    have h0 : max (0 : ℝ) (min 0 1) = 0 := by norm_num
    rw [h0] at hmax
    simpa [reactionComponentTransition, clip] using hmax
  refine ⟨reactionComponentTransition_zero Tds, ?_, hclip, ?_, ?_, ?_⟩
  · simp only [seperateReactionComponents, reactionComponentTransition_zero,
      mul_one]
  · simp only [seperateReactionComponents]
    simpa using Filter.Tendsto.mul tendsto_const_nhds hclip
  · simp only [seperateReactionComponents]
    simpa using Filter.Tendsto.mul tendsto_const_nhds hclip
  · simp only [seperateReactionComponents]
    simpa using Filter.Tendsto.mul tendsto_const_nhds hclip

/-- Witness for C6 at Tds = 1 and concrete total/anchor vectors. -/
theorem transition_boundary_witness :
    (0 : ℝ) < 1 ∧
    (reactionComponentTransition 1 0 = 1 ∧
     (seperateReactionComponents GaitPhase.DOUBLE_SUPPORT LeadingLeg.RIGHT 0
        (⟨3, 30, 0⟩ : Vec3) (⟨0, 20, 0⟩ : Vec3) (reactionComponentTransition 1)
        (reactionComponentTransition 1) (reactionComponentTransition 1)
        ⟨41, 0, 0⟩ ⟨42, 0, 0⟩).2 = (⟨0, 20, 0⟩ : Vec3) ∧
     Filter.Tendsto (reactionComponentTransition 1) Filter.atTop (nhds 0) ∧
     Filter.Tendsto (fun time =>
        ((seperateReactionComponents GaitPhase.DOUBLE_SUPPORT LeadingLeg.RIGHT
            time (⟨3, 30, 0⟩ : Vec3) (⟨0, 20, 0⟩ : Vec3)
            (reactionComponentTransition 1) (reactionComponentTransition 1)
            (reactionComponentTransition 1) ⟨41, 0, 0⟩ ⟨42, 0, 0⟩).2).x)
       Filter.atTop (nhds 0) ∧
     Filter.Tendsto (fun time =>
        ((seperateReactionComponents GaitPhase.DOUBLE_SUPPORT LeadingLeg.RIGHT
            time (⟨3, 30, 0⟩ : Vec3) (⟨0, 20, 0⟩ : Vec3)
            (reactionComponentTransition 1) (reactionComponentTransition 1)
            (reactionComponentTransition 1) ⟨41, 0, 0⟩ ⟨42, 0, 0⟩).2).y)
       Filter.atTop (nhds 0) ∧
     Filter.Tendsto (fun time =>
        ((seperateReactionComponents GaitPhase.DOUBLE_SUPPORT LeadingLeg.RIGHT
            time (⟨3, 30, 0⟩ : Vec3) (⟨0, 20, 0⟩ : Vec3)
            (reactionComponentTransition 1) (reactionComponentTransition 1)
            (reactionComponentTransition 1) ⟨41, 0, 0⟩ ⟨42, 0, 0⟩).2).z)
       Filter.atTop (nhds 0)) :=
  ⟨by norm_num,
   transition_boundary 1 (by norm_num) ⟨3, 30, 0⟩ ⟨0, 20, 0⟩ ⟨41, 0, 0⟩
     ⟨42, 0, 0⟩⟩

end OpenSimRT
